import Mathlib

/-!
Shallow embedding of the CloudRift terraform provider core
(`pkg/cloudriftapi` client and `internal/provider` virtual-machine
lifecycle controller), with theorems settling the behavioural claims
about error handling, polling, caching and retry logic.

Network interactions are modelled by oracles: each embedded operation
takes the outcome of its underlying request (an `Except` value, or a
list of poll events) as an explicit argument and computes exactly what
the Go code computes from that outcome.
-/

namespace Cloudrift

/-- Go error values as the provider observes them: the `ErrNotFound`
sentinel (`errors.Is(err, cloudriftapi.ErrNotFound)` is modelled as
equality with `GoErr.notFound`) or any other error carrying a message. -/
inductive GoErr where
  | notFound
  | other (msg : String)
deriving DecidableEq, Repr

/-- `cloudriftapi.InstanceStatus`: the four observed status values. -/
inductive InstanceStatus where
  | Initializing
  | Active
  | Deactivating
  | Inactive
deriving DecidableEq, Repr

/-- `string(status)` as used by `populateModelFromInstanceResponse`. -/
def statusString : InstanceStatus → String
  | .Initializing => "Initializing"
  | .Active => "Active"
  | .Deactivating => "Deactivating"
  | .Inactive => "Inactive"

/-- The username/password shape of `InstanceLoginInfo0`
(generated type; shape taken from its use in
`populateModelFromInstanceResponse`). -/
structure UsernameAndPassword where
  username : String
  password : String
deriving DecidableEq, Repr

/-- One entry of `InstanceAndUsageInfo.VirtualMachines`.
`loginInfo` models the `LoginInfo` union pointer: `none` for a nil
pointer, `some none` when `AsInstanceLoginInfo0` fails to parse, and
`some (some up)` when it parses to variant 0. -/
structure VirtualMachineInfo where
  vmid : Int
  name : String
  loginInfo : Option (Option UsernameAndPassword)
  ready : Bool
deriving DecidableEq, Repr

/-- `ResourceInfo` as read by `populateModelFromInstanceResponse`. -/
structure ResourceInfo where
  providerName : String
  instanceType : String
deriving DecidableEq, Repr

/-- `cloudriftapi.InstanceAndUsageInfo`, restricted to the fields the
provider reads (shape taken from `GetInstance` and
`populateModelFromInstanceResponse`). -/
structure InstanceAndUsageInfo where
  id : String
  status : InstanceStatus
  nodeId : String
  nodeMode : String
  nodeStatus : String
  hostAddress : Option String
  internalHostAddress : Option String
  resourceInfo : Option ResourceInfo
  virtualMachines : List VirtualMachineInfo
deriving DecidableEq, Repr

/-- `HttpClient.GetInstance`: the by-id lookup over the result of
`listInstances` with a by-id selector. The Go code scans the returned
instances for the first one whose `Id` matches; a match with status
`Inactive` is reported as `ErrNotFound`, as is the absence of any
match; any listing error propagates unchanged. -/
def GetInstance (listing : Except GoErr (List InstanceAndUsageInfo)) (id : String) :
    Except GoErr InstanceAndUsageInfo :=
  match listing with
  | .error e => .error e
  | .ok instances =>
    match instances.find? (fun i => i.id == id) with
    | some i => if i.status = .Inactive then .error .notFound else .ok i
    | none => .error .notFound

/-- `cloudriftapi.RecipeDetails1`. Modelled from the spec: the
generated type (file `cloudriftapi.gen.go` is not part of the sources)
holds the optional VM details — a cloudinit URL and an image URL —
nested under a `VirtualMachine` field; only its equality with its
zero value matters to the embedded code. -/
structure RecipeDetails1 where
  cloudinitUrl : String
  imageUrl : Option String
deriving DecidableEq, Repr

/-- The Go zero value of `RecipeDetails1`, compared against in
`refreshVMRecipeCache` (`vmDetails != empty`). -/
def emptyRecipeDetails1 : RecipeDetails1 := { cloudinitUrl := "", imageUrl := none }

/-- One recipe from a listed group. `details` models the result of
`json.Unmarshal(r.Details.union, &vmDetails)`: `none` when
unmarshalling fails, `some d` when it yields `d`. -/
structure Recipe where
  name : String
  details : Option RecipeDetails1
deriving DecidableEq, Repr

/-- One group from `ListRecipes` (`recipes.Data.Groups`). -/
structure RecipeGroup where
  recipes : List Recipe
deriving DecidableEq, Repr

/-- The `vmRecipies` map. Lookup takes the first entry with a matching
key, and insertion conses to the front, so a later insertion shadows an
earlier one exactly as a Go map overwrite does. -/
abbrev RecipeCache := List (String × RecipeDetails1)

/-- Map indexing `c.vmRecipies[recipe]` (`nil` for a missing key). -/
def cacheLookup (c : RecipeCache) (k : String) : Option RecipeDetails1 :=
  (List.find? (fun p => p.1 == k) c).map (fun p => p.2)

/-- `strings.ToLower`, modelled as character-wise lowering of the
string's characters. -/
def strToLower (s : String) : String := ⟨s.data.map Char.toLower⟩

/-- The inner-loop body of `HttpClient.refreshVMRecipeCache`: a recipe
whose details unmarshal to a non-zero `RecipeDetails1` is stored under
its lower-cased name (`name := strings.ToLower(r.Name)`); any other
recipe is skipped. -/
def cacheAddRecipe (c : RecipeCache) (r : Recipe) : RecipeCache :=
  match r.details with
  | none => c
  | some d => if d ≠ emptyRecipeDetails1 then ((strToLower r.name), d) :: c else c

/-- The outer-loop body of `HttpClient.refreshVMRecipeCache`: process
every recipe of one group. -/
def cacheAddGroup (c : RecipeCache) (g : RecipeGroup) : RecipeCache :=
  g.recipes.foldl cacheAddRecipe c

/-- The cache-population loop of `HttpClient.refreshVMRecipeCache`:
process every group of the listing; the existing cache is kept. -/
def refreshVMRecipeCache (cache : RecipeCache) (groups : List RecipeGroup) : RecipeCache :=
  groups.foldl cacheAddGroup cache

/-- `HttpClient.refreshVMRecipeCache` as a whole: a failing
`ListRecipes` call propagates its error, a successful one repopulates
the cache. `listing` is the oracle for the `ListRecipes` result. -/
def refreshVMRecipeCacheResult (cache : RecipeCache) (listing : Except GoErr (List RecipeGroup)) :
    Except GoErr RecipeCache :=
  match listing with
  | .error e => .error e
  | .ok groups => .ok (refreshVMRecipeCache cache groups)

/-- `HttpClient.findVMRecipe`: check the cache, on a miss refresh once
and check again, and fail naming the recipe when it is still absent.
The second component counts the refresh calls the lookup performed. -/
def findVMRecipe (cache : RecipeCache) (listing : Except GoErr (List RecipeGroup))
    (recipe : String) : Except GoErr RecipeDetails1 × Nat :=
  match cacheLookup cache recipe with
  | some d => (.ok d, 0)
  | none =>
    match refreshVMRecipeCacheResult cache listing with
    | .error e => (.error e, 1)
    | .ok cache2 =>
      match cacheLookup cache2 recipe with
      | some d => (.ok d, 1)
      | none => (.error (.other ("recipe " ++ recipe ++ " not found")), 1)

/-- The recipe-resolution step of `HttpClient.RentPublicInstanceVM`:
the requested name is lower-cased (`recipe = strings.ToLower(recipe)`)
before `findVMRecipe` is consulted. -/
def rentLookupRecipe (cache : RecipeCache) (listing : Except GoErr (List RecipeGroup))
    (recipe : String) : Except GoErr RecipeDetails1 :=
  (findVMRecipe cache listing (strToLower recipe)).1

/-- Observable outcome of the transport phase of
`DoRequestWithApiToken`: whether some attempt succeeded, how many
attempts were issued, and the seconds slept before each retry. -/
structure RetryOutcome where
  ok : Bool
  attempts : Nat
  backoffs : List Nat
deriving DecidableEq, Repr

/-- The retry loop of `DoRequestWithApiToken`
(`for retries := c.retries; retries > 0; retries--`): with `r`
iterations remaining, sleep `backoff` seconds, double the backoff,
issue attempt `idx`, and stop on the first attempt that carries no
transport error. `attemptOk j` is the fault oracle for attempt `j`. -/
def retryAttempts (attemptOk : Nat → Bool) :
    Nat → Nat → Nat → List Nat → RetryOutcome
  | 0, _, idx, slept => ⟨false, idx, slept⟩
  | r + 1, backoff, idx, slept =>
    if attemptOk idx then ⟨true, idx + 1, slept ++ [backoff]⟩
    else retryAttempts attemptOk r (backoff * 2) (idx + 1) (slept ++ [backoff])

/-- Transport phase of `DoRequestWithApiToken`: one initial attempt,
then — only if it failed — the retry loop starting with a 1-second
backoff. -/
def DoRequestTransport (retries : Nat) (attemptOk : Nat → Bool) : RetryOutcome :=
  if attemptOk 0 then ⟨true, 1, []⟩
  else retryAttempts attemptOk retries 1 1 []

/-- The sleep sequence of `n` consecutive retries whose first backoff
is `b` seconds: `b` is doubled before every further retry. -/
def backoffList (b : Nat) : Nat → List Nat
  | 0 => []
  | k + 1 => b :: backoffList (b * 2) k

/-- One nested `virtual_machines` object of the terraform model, as
built by `populateModelFromInstanceResponse` (`username` stays null
when the login info is absent or not variant 0). -/
structure VMEntry where
  vmid : Int
  name : String
  username : Option String
deriving DecidableEq, Repr

/-- `virtualMachineMetadataModel`. -/
structure VirtualMachineMetadataModel where
  startupCommands : Option String
deriving DecidableEq, Repr

/-- `virtualMachineModel`: the terraform state/plan record. A
`types.String` holding a known value is `some`, a null or unknown one
is `none`. -/
structure VirtualMachineModel where
  id : Option String
  status : Option String
  nodeId : Option String
  nodeMode : Option String
  nodeStatus : Option String
  publicIP : Option String
  privateIP : Option String
  providerName : Option String
  instanceType : Option String
  virtualMachines : Option (List VMEntry)
  metadata : Option VirtualMachineMetadataModel
  recipe : Option String
  datacenter : Option String
  sshKeyID : Option String
deriving DecidableEq, Repr

/-- The per-VM conversion inside `populateModelFromInstanceResponse`. -/
def vmEntryOfInfo (vm : VirtualMachineInfo) : VMEntry :=
  { vmid := vm.vmid
    name := vm.name
    username :=
      match vm.loginInfo with
      | some (some up) => some up.username
      | _ => none }

/-- `populateModelFromInstanceResponse`: merge a fetched instance
snapshot into the model. Host addresses and resource info are copied
only when present; `metadata`, `recipe`, `datacenter` and `sshKeyID`
are never written. -/
def populateModelFromInstanceResponse (m : VirtualMachineModel)
    (data : InstanceAndUsageInfo) : VirtualMachineModel :=
  let m := { m with
    id := some data.id
    status := some (statusString data.status)
    nodeId := some data.nodeId
    nodeMode := some data.nodeMode
    nodeStatus := some data.nodeStatus }
  let m := match data.hostAddress with
    | some a => { m with publicIP := some a }
    | none => m
  let m := match data.internalHostAddress with
    | some a => { m with privateIP := some a }
    | none => m
  let m := match data.resourceInfo with
    | some ri => { m with providerName := some ri.providerName,
                          instanceType := some ri.instanceType }
    | none => m
  { m with virtualMachines := some (data.virtualMachines.map vmEntryOfInfo) }

/-- `ids.Data.InstanceIds` of `RentInstanceResponseProto`. -/
structure RentIds where
  instanceIds : List String
deriving DecidableEq, Repr

instance {ε α : Type} [DecidableEq ε] [DecidableEq α] : DecidableEq (Except ε α)
  | .error e, .error f =>
    if h : e = f then .isTrue (by rw [h]) else .isFalse (by simp [h])
  | .error _, .ok _ => .isFalse (by simp)
  | .ok _, .error _ => .isFalse (by simp)
  | .ok a, .ok b =>
    if h : a = b then .isTrue (by rw [h]) else .isFalse (by simp [h])

/-- One firing of the `select` in the create poll loop: the
provisioning-timeout timer, the context's cancellation, or an interval
tick whose `GetInstance` call returned `result`. -/
inductive PollEvent where
  | timeout
  | canceled
  | tick (result : Except GoErr InstanceAndUsageInfo)
deriving DecidableEq, Repr

/-- How `virtualMachineResource.Create` exits (or `running` when the
supplied event trace ends while the loop is still waiting). -/
inductive CreateOutcome where
  | rentFailed (e : GoErr)
  | noInstanceIds
  | success
  | timedOut
  | cancelled
  | pollFailed (e : GoErr)
  | running
deriving DecidableEq, Repr

/-- The outcome of a create run together with the model written to the
terraform state file by `resp.State.Set`, if any write happened. -/
structure CreateResult where
  outcome : CreateOutcome
  persisted : Option VirtualMachineModel
deriving DecidableEq, Repr

/-- `if last != nil { populateModelFromInstanceResponse(&plan, last) }`:
the merge applied on the failure exits of the create poll loop. -/
def mergeLast (plan : VirtualMachineModel) : Option InstanceAndUsageInfo → VirtualMachineModel
  | some l => populateModelFromInstanceResponse plan l
  | none => plan

/-- The readiness computation of the create poll loop:
`len(last.VirtualMachines) > 0 && last.VirtualMachines[0].Ready`. -/
def vmFirstReady (l : InstanceAndUsageInfo) : Bool :=
  match l.virtualMachines with
  | vm :: _ => vm.ready
  | [] => false

/-- The exit test of the create poll loop:
`last.Status == cloudriftapi.Active && vmReady`. -/
def instanceReady (l : InstanceAndUsageInfo) : Bool :=
  l.status == .Active && vmFirstReady l

/-- The create poll loop: on timeout or cancellation, merge the last
observed snapshot (if any) and persist before failing; on a fetch
error, persist the merged last snapshot only when the error is not
`ErrNotFound`, then fail; on a fetched snapshot, remember it, and exit
successfully — merging and persisting it — exactly when `instanceReady`
holds, otherwise keep looping. -/
def createPollLoop (plan : VirtualMachineModel) (last : Option InstanceAndUsageInfo) :
    List PollEvent → CreateResult
  | [] => ⟨.running, none⟩
  | .timeout :: _ => ⟨.timedOut, some (mergeLast plan last)⟩
  | .canceled :: _ => ⟨.cancelled, some (mergeLast plan last)⟩
  | .tick (.error e) :: _ =>
    if e = .notFound then ⟨.pollFailed e, none⟩
    else ⟨.pollFailed e, some (mergeLast plan last)⟩
  | .tick (.ok current) :: rest =>
    if instanceReady current then
      ⟨.success, some (populateModelFromInstanceResponse plan current)⟩
    else
      createPollLoop plan (some current) rest

/-- A trace consisting only of interval ticks whose fetches returned
the given snapshots, in order. -/
def okTicks (snaps : List InstanceAndUsageInfo) : List PollEvent :=
  snaps.map (fun x => PollEvent.tick (Except.ok x))

/-- The value of the `last` pointer after a run of successful fetches:
its previous value when there were none, otherwise the most recent
snapshot. -/
def lastObserved (last : Option InstanceAndUsageInfo) :
    List InstanceAndUsageInfo → Option InstanceAndUsageInfo
  | [] => last
  | x :: xs => lastObserved (some x) xs

/-- `virtualMachineResource.Create` from the rent call onward: a rent
error aborts; an id list of length `< 1` aborts with a hard error; and
otherwise the first returned id is written into the plan
(`plan.ID = types.StringValue(id)`) before the poll loop starts. -/
def createAfterRent (plan : VirtualMachineModel) (rentResult : Except GoErr RentIds)
    (events : List PollEvent) : CreateResult :=
  match rentResult with
  | .error e => ⟨.rentFailed e, none⟩
  | .ok ids =>
    match ids.instanceIds with
    | [] => ⟨.noInstanceIds, none⟩
    | id :: _ => createPollLoop { plan with id := some id } none events

/-- Outcome of `virtualMachineResource.Read`. -/
inductive ReadOutcome where
  | removed
  | readError (e : GoErr)
  | updated (m : VirtualMachineModel)
deriving DecidableEq, Repr

/-- `virtualMachineResource.Read` over the `GetInstance` result:
`ErrNotFound` removes the resource from state, any other error is
surfaced, and a fetched snapshot is merged into the prior state and
persisted. -/
def readVirtualMachine (state : VirtualMachineModel)
    (fetch : Except GoErr InstanceAndUsageInfo) : ReadOutcome :=
  match fetch with
  | .error .notFound => .removed
  | .error e => .readError e
  | .ok vm => .updated (populateModelFromInstanceResponse state vm)

/-- Outcome of a delete operation (`running` when the event trace ends
while the poll loop is still waiting). -/
inductive DeleteOutcome where
  | success
  | cancelled
  | failed (e : GoErr)
  | running
deriving DecidableEq, Repr

/-- `sshKeyResource.Delete` over the `DeleteSSHKey` result (`none` for
a nil error): `ErrNotFound` means the key is already gone and the
delete succeeds; any other error is surfaced as-is. -/
def sshKeyResourceDelete (deleteResult : Option GoErr) : DeleteOutcome :=
  match deleteResult with
  | none => .success
  | some .notFound => .success
  | some e => .failed e

/-- One firing of the `select` in the delete poll loop of
`virtualMachineResource.Delete`. -/
inductive DeleteEvent where
  | canceled
  | tick (result : Except GoErr InstanceAndUsageInfo)
deriving DecidableEq, Repr

/-- The delete poll loop: wait until `GetInstance` reports
`ErrNotFound` (success), surface any other fetch error, and abort on
cancellation. -/
def deletePollLoop : List DeleteEvent → DeleteOutcome
  | [] => .running
  | .canceled :: _ => .cancelled
  | .tick (.error .notFound) :: _ => .success
  | .tick (.error e) :: _ => .failed e
  | .tick (.ok _) :: rest => deletePollLoop rest

/-- `virtualMachineResource.Delete` over the `TerminateInstance` result
(`none` for a nil error): `ErrNotFound` means the instance is already
gone and the delete succeeds without polling; any other error is
surfaced as-is; a successful terminate enters the poll loop. -/
def virtualMachineResourceDelete (terminateResult : Option GoErr)
    (events : List DeleteEvent) : DeleteOutcome :=
  match terminateResult with
  | some .notFound => .success
  | some e => .failed e
  | none => deletePollLoop events

/-! ### Concrete fixtures used by witnesses and counterexamples -/

/-- A model with every attribute null/unknown. -/
def emptyModel : VirtualMachineModel :=
  ⟨none, none, none, none, none, none, none, none, none, none, none, none, none, none⟩

/-- A VM that reports ready. -/
def vmReadyInfo : VirtualMachineInfo :=
  { vmid := 1, name := "vm-0", loginInfo := some (some ⟨"root", "pw"⟩), ready := true }

/-- A VM that does not report ready. -/
def vmNotReadyInfo : VirtualMachineInfo :=
  { vmid := 2, name := "vm-1", loginInfo := none, ready := false }

/-- A snapshot still initializing, with no VMs yet. -/
def snapInit : InstanceAndUsageInfo :=
  { id := "inst-a", status := .Initializing, nodeId := "node-1", nodeMode := "Spot",
    nodeStatus := "Online", hostAddress := none, internalHostAddress := none,
    resourceInfo := none, virtualMachines := [] }

/-- An active snapshot whose first VM is ready. -/
def snapReady : InstanceAndUsageInfo :=
  { id := "inst-a", status := .Active, nodeId := "node-1", nodeMode := "Spot",
    nodeStatus := "Online", hostAddress := some "203.0.113.7", internalHostAddress := none,
    resourceInfo := some ⟨"neuralrack", "rtx59-16c-nr"⟩, virtualMachines := [vmReadyInfo] }

/-- An active snapshot whose first VM is not ready but whose second is. -/
def snapSecondReady : InstanceAndUsageInfo :=
  { id := "inst-a", status := .Active, nodeId := "node-1", nodeMode := "Spot",
    nodeStatus := "Online", hostAddress := none, internalHostAddress := none,
    resourceInfo := none, virtualMachines := [vmNotReadyInfo, vmReadyInfo] }

/-- An inactive snapshot. -/
def snapInactive : InstanceAndUsageInfo :=
  { id := "inst-a", status := .Inactive, nodeId := "node-1", nodeMode := "Spot",
    nodeStatus := "Online", hostAddress := none, internalHostAddress := none,
    resourceInfo := none, virtualMachines := [] }

/-- A prior state holding caller-owned fields. -/
def priorState : VirtualMachineModel :=
  { emptyModel with
      recipe := some "ubuntu"
      datacenter := some "us-east"
      sshKeyID := some "k1"
      metadata := some ⟨some "IyEvYmluL2Jhc2g="⟩ }

/-- Non-empty recipe details. -/
def ubuntuDetails : RecipeDetails1 :=
  { cloudinitUrl := "https://cloudrift.example/cloudinit", imageUrl := some "https://cloudrift.example/img" }

/-! ### Helper lemmas -/

/-- `populateModelFromInstanceResponse` never touches the caller-owned
fields `metadata`, `recipe`, `datacenter`, `sshKeyID`. -/
lemma populate_frame (m : VirtualMachineModel) (data : InstanceAndUsageInfo) :
    (populateModelFromInstanceResponse m data).recipe = m.recipe ∧
    (populateModelFromInstanceResponse m data).datacenter = m.datacenter ∧
    (populateModelFromInstanceResponse m data).sshKeyID = m.sshKeyID ∧
    (populateModelFromInstanceResponse m data).metadata = m.metadata := by
  unfold populateModelFromInstanceResponse
  cases data.hostAddress <;> cases data.internalHostAddress <;>
    cases data.resourceInfo <;> simp

/-! ### Claim C4 — `GetInstance` and the Inactive-is-absent rule -/

/-- Claim C4: over a successful listing, `GetInstance` reports
`ErrNotFound` when no instance carries the requested id, reports
`ErrNotFound` when the matching instance is `Inactive`, returns the
matching instance when its status is anything else, and returns an
instance only if it is listed with the requested id and a status other
than `Inactive`. -/
theorem getInstance_notFound_iff_absent_or_inactive
    (instances : List InstanceAndUsageInfo) (id : String) :
    ((∀ i ∈ instances, i.id ≠ id) →
      GetInstance (Except.ok instances) id = Except.error GoErr.notFound) ∧
    (∀ i, instances.find? (fun j => j.id == id) = some i →
      (i.status = InstanceStatus.Inactive →
        GetInstance (Except.ok instances) id = Except.error GoErr.notFound) ∧
      (i.status ≠ InstanceStatus.Inactive →
        GetInstance (Except.ok instances) id = Except.ok i)) ∧
    (∀ i, GetInstance (Except.ok instances) id = Except.ok i →
      i ∈ instances ∧ i.id = id ∧ i.status ≠ InstanceStatus.Inactive) := by
  refine ⟨?_, ?_, ?_⟩
  · intro h
    have hf : instances.find? (fun j => j.id == id) = none := by
      rw [List.find?_eq_none]
      intro x hx
      simpa using h x hx
    simp [GetInstance, hf]
  · intro i hi
    refine ⟨?_, ?_⟩
    · intro hstat
      simp [GetInstance, hi, hstat]
    · intro hstat
      simp [GetInstance, hi, hstat]
  · intro i hok
    cases hfind : instances.find? (fun j => j.id == id) with
    | none => simp [GetInstance, hfind] at hok
    | some j =>
      simp only [GetInstance, hfind] at hok
      by_cases hs : j.status = InstanceStatus.Inactive
      · rw [if_pos hs] at hok; simp at hok
      · rw [if_neg hs] at hok
        have hji : j = i := by simpa using hok
        subst hji
        have hmem := List.mem_of_find?_eq_some hfind
        have hid := List.find?_some hfind
        exact ⟨hmem, by simpa using hid, hs⟩

/-- Witness for C4 at concrete listings. -/
theorem getInstance_notFound_iff_absent_or_inactive_witness :
    GetInstance (Except.ok ([] : List InstanceAndUsageInfo)) "inst-a"
      = Except.error GoErr.notFound ∧
    GetInstance (Except.ok [snapInactive]) "inst-a" = Except.error GoErr.notFound ∧
    GetInstance (Except.ok [snapReady]) "inst-a" = Except.ok snapReady := by
  refine ⟨?_, ?_, ?_⟩
  · exact (getInstance_notFound_iff_absent_or_inactive [] "inst-a").1 (by simp)
  · exact ((getInstance_notFound_iff_absent_or_inactive [snapInactive] "inst-a").2.1
      snapInactive (by decide)).1 (by decide)
  · exact ((getInstance_notFound_iff_absent_or_inactive [snapReady] "inst-a").2.1
      snapReady (by decide)).2 (by decide)

/-! ### Claim C5 — `findVMRecipe`: cache hit, single refresh, miss error -/

/-- Claim C5: a cache hit answers immediately with no refresh; a miss
performs exactly one refresh and checks again; a name still absent
after the refresh fails with an error naming the requested recipe; and
no lookup ever performs more than one refresh. -/
theorem findVMRecipe_one_refresh (cache : RecipeCache)
    (listing : Except GoErr (List RecipeGroup)) (recipe : String) :
    (∀ d, cacheLookup cache recipe = some d →
      findVMRecipe cache listing recipe = (Except.ok d, 0)) ∧
    (cacheLookup cache recipe = none → (findVMRecipe cache listing recipe).2 = 1) ∧
    (∀ groups, listing = Except.ok groups → cacheLookup cache recipe = none →
      cacheLookup (refreshVMRecipeCache cache groups) recipe = none →
      findVMRecipe cache listing recipe
        = (Except.error (GoErr.other ("recipe " ++ recipe ++ " not found")), 1)) ∧
    (findVMRecipe cache listing recipe).2 ≤ 1 := by
  refine ⟨?_, ?_, ?_, ?_⟩
  · intro d hd
    simp [findVMRecipe, hd]
  · intro hmiss
    unfold findVMRecipe
    rw [hmiss]
    cases listing with
    | error e => rfl
    | ok groups =>
      simp only [refreshVMRecipeCacheResult]
      cases cacheLookup (refreshVMRecipeCache cache groups) recipe <;> rfl
  · intro groups hl hmiss hmiss2
    subst hl
    simp [findVMRecipe, hmiss, refreshVMRecipeCacheResult, hmiss2]
  · unfold findVMRecipe
    cases cacheLookup cache recipe with
    | some d => simp
    | none =>
      cases listing with
      | error e => simp [refreshVMRecipeCacheResult]
      | ok groups =>
        simp only [refreshVMRecipeCacheResult]
        cases cacheLookup (refreshVMRecipeCache cache groups) recipe <;> simp

/-- Witness for C5: a hit on a one-entry cache, and a miss that stays
absent after a refresh from an empty listing. -/
theorem findVMRecipe_one_refresh_witness :
    findVMRecipe [("ubuntu", ubuntuDetails)] (Except.ok []) "ubuntu"
      = (Except.ok ubuntuDetails, 0) ∧
    findVMRecipe [] (Except.ok []) "ubuntu"
      = (Except.error (GoErr.other ("recipe " ++ "ubuntu" ++ " not found")), 1) := by
  refine ⟨?_, ?_⟩
  · exact (findVMRecipe_one_refresh [("ubuntu", ubuntuDetails)] (Except.ok []) "ubuntu").1
      ubuntuDetails (by decide)
  · exact (findVMRecipe_one_refresh [] (Except.ok []) "ubuntu").2.2.1
      [] rfl (by decide) (by decide)

/-! ### Claim C6 — idempotent deletes -/

/-- Claim C6: deleting an SSH key or terminating an instance whose
delete/terminate request reports `ErrNotFound` completes successfully
with no error, regardless of the poll events that would follow; any
other error from the request is surfaced as-is. -/
theorem delete_tolerates_notFound (events : List DeleteEvent) (msg : String) :
    sshKeyResourceDelete (some GoErr.notFound) = DeleteOutcome.success ∧
    virtualMachineResourceDelete (some GoErr.notFound) events = DeleteOutcome.success ∧
    sshKeyResourceDelete (some (GoErr.other msg))
      = DeleteOutcome.failed (GoErr.other msg) ∧
    virtualMachineResourceDelete (some (GoErr.other msg)) events
      = DeleteOutcome.failed (GoErr.other msg) := by
  exact ⟨rfl, rfl, rfl, rfl⟩

/-! ### Claim C9 — read never overwrites caller-owned fields -/

/-- Claim C9: whenever `Read` succeeds and persists an updated model,
the `recipe`, `datacenter`, `ssh_key_id` and `metadata` fields of the
persisted model are exactly those of the prior state. -/
theorem read_preserves_caller_owned_fields (state : VirtualMachineModel)
    (vm : InstanceAndUsageInfo) (m : VirtualMachineModel)
    (h : readVirtualMachine state (Except.ok vm) = ReadOutcome.updated m) :
    m.recipe = state.recipe ∧ m.datacenter = state.datacenter ∧
    m.sshKeyID = state.sshKeyID ∧ m.metadata = state.metadata := by
  have hm : m = populateModelFromInstanceResponse state vm := by
    have := h.symm
    simpa [readVirtualMachine] using this
  subst hm
  exact populate_frame state vm

/-! ### Claim C7 — case-insensitive recipe resolution -/

/-- Every step of the cache-refresh loop only adds entries. -/
lemma subset_cacheAddRecipe (c : RecipeCache) (r : Recipe) : c ⊆ cacheAddRecipe c r := by
  intro a ha
  cases hdet : r.details with
  | none => simpa [cacheAddRecipe, hdet] using ha
  | some d =>
    by_cases hne : d = emptyRecipeDetails1
    · simpa [cacheAddRecipe, hdet, hne] using ha
    · simp only [cacheAddRecipe, hdet, ne_eq, hne, not_false_eq_true, if_true]
      exact List.mem_cons_of_mem _ ha

/-- The recipe fold only adds entries. -/
lemma subset_foldl_addRecipe :
    ∀ (rs : List Recipe) (c : RecipeCache), c ⊆ rs.foldl cacheAddRecipe c
  | [], _ => fun _ h => h
  | r :: rs, c =>
    fun _ h => subset_foldl_addRecipe rs (cacheAddRecipe c r) (subset_cacheAddRecipe c r h)

/-- The group fold only adds entries. -/
lemma subset_foldl_addGroup :
    ∀ (gs : List RecipeGroup) (c : RecipeCache), c ⊆ gs.foldl cacheAddGroup c
  | [], _ => fun _ h => h
  | g :: gs, c =>
    fun _ h => subset_foldl_addGroup gs (cacheAddGroup c g) (subset_foldl_addRecipe g.recipes c h)

/-- A recipe with non-zero parsed details ends up in the cache under
its lower-cased name after its group's fold. -/
lemma mem_foldl_addRecipe (r : Recipe) (d : RecipeDetails1)
    (hd : r.details = some d) (hne : d ≠ emptyRecipeDetails1) :
    ∀ (rs : List Recipe) (c : RecipeCache), r ∈ rs →
      ((strToLower r.name), d) ∈ rs.foldl cacheAddRecipe c := by
  intro rs
  induction rs with
  | nil => intro c h; cases h
  | cons x xs ih =>
    intro c hmem
    rcases List.mem_cons.mp hmem with hx | hxs
    · subst hx
      rw [List.foldl_cons]
      apply subset_foldl_addRecipe
      simp [cacheAddRecipe, hd, hne]
    · exact ih (cacheAddRecipe c x) hxs

/-- A recipe with non-zero parsed details ends up in the refreshed
cache under its lower-cased name. -/
lemma mem_refreshVMRecipeCache (g : RecipeGroup) (r : Recipe) (d : RecipeDetails1)
    (hr : r ∈ g.recipes) (hd : r.details = some d) (hne : d ≠ emptyRecipeDetails1) :
    ∀ (gs : List RecipeGroup) (c : RecipeCache), g ∈ gs →
      ((strToLower r.name), d) ∈ refreshVMRecipeCache c gs := by
  intro gs
  induction gs with
  | nil => intro c h; cases h
  | cons x xs ih =>
    intro c hmem
    rcases List.mem_cons.mp hmem with hx | hxs
    · subst hx
      exact subset_foldl_addGroup xs (cacheAddGroup c g)
        (mem_foldl_addRecipe r d hd hne g.recipes c hr)
    · exact ih (cacheAddGroup c x) hxs

/-- Conversely, every entry of a refreshed cache either was already
cached or comes from some listed recipe, keyed by its lower-cased
name. -/
lemma mem_cacheAddRecipe_elim (c : RecipeCache) (r : Recipe) (p : String × RecipeDetails1)
    (h : p ∈ cacheAddRecipe c r) :
    p ∈ c ∨ (r.details = some p.2 ∧ p.1 = (strToLower r.name)) := by
  cases hd : r.details with
  | none =>
    simp only [cacheAddRecipe, hd] at h
    exact Or.inl h
  | some d =>
    by_cases hne : d = emptyRecipeDetails1
    · simp only [cacheAddRecipe, hd, ne_eq, hne, not_true_eq_false, if_false] at h
      exact Or.inl h
    · simp only [cacheAddRecipe, hd, ne_eq, hne, not_false_eq_true, if_true] at h
      rcases List.mem_cons.mp h with hp | hp
      · right
        rw [hp]
        exact ⟨rfl, rfl⟩
      · exact Or.inl hp

/-- Elimination through the recipe fold. -/
lemma mem_foldl_addRecipe_elim (p : String × RecipeDetails1) :
    ∀ (rs : List Recipe) (c : RecipeCache), p ∈ rs.foldl cacheAddRecipe c →
      p ∈ c ∨ ∃ r ∈ rs, r.details = some p.2 ∧ p.1 = (strToLower r.name) := by
  intro rs
  induction rs with
  | nil => intro c h; exact Or.inl h
  | cons x xs ih =>
    intro c h
    rcases ih (cacheAddRecipe c x) h with hc | ⟨r, hr, hrd⟩
    · rcases mem_cacheAddRecipe_elim c x p hc with hc' | hx
      · exact Or.inl hc'
      · exact Or.inr ⟨x, List.mem_cons_self _ _, hx⟩
    · exact Or.inr ⟨r, List.mem_cons_of_mem _ hr, hrd⟩

/-- Elimination through the group fold. -/
lemma mem_refreshVMRecipeCache_elim (p : String × RecipeDetails1) :
    ∀ (gs : List RecipeGroup) (c : RecipeCache), p ∈ refreshVMRecipeCache c gs →
      p ∈ c ∨ ∃ g ∈ gs, ∃ r ∈ g.recipes, r.details = some p.2 ∧ p.1 = (strToLower r.name) := by
  intro gs
  induction gs with
  | nil => intro c h; exact Or.inl h
  | cons x xs ih =>
    intro c h
    rcases ih (cacheAddGroup c x) h with hc | ⟨g, hg, hrest⟩
    · rcases mem_foldl_addRecipe_elim p x.recipes c hc with hc' | ⟨r, hr, hrd⟩
      · exact Or.inl hc'
      · exact Or.inr ⟨x, List.mem_cons_self _ _, r, hr, hrd⟩
    · exact Or.inr ⟨g, List.mem_cons_of_mem _ hg, hrest⟩

/-- A cached key is found by `cacheLookup`. -/
lemma cacheLookup_isSome_of_mem (c : RecipeCache) (k : String) (d : RecipeDetails1)
    (h : (k, d) ∈ c) : (cacheLookup c k).isSome := by
  unfold cacheLookup
  rw [Option.isSome_map']
  rw [List.find?_isSome]
  exact ⟨(k, d), h, by simp⟩

/-- Claim C7: `refreshVMRecipeCache` keys every stored recipe by its
lower-cased name, and the rent path lower-cases the requested name
before the lookup, so any request whose lower-casing agrees with a
registered recipe's lower-cased name (e.g. `"Ubuntu"` requested as
`"ubuntu"` or vice versa) resolves successfully. -/
theorem recipe_resolution_case_insensitive (cache : RecipeCache)
    (groups : List RecipeGroup) (listing : Except GoErr (List RecipeGroup))
    (g : RecipeGroup) (r : Recipe) (d : RecipeDetails1) (request : String)
    (hg : g ∈ groups) (hr : r ∈ g.recipes) (hd : r.details = some d)
    (hne : d ≠ emptyRecipeDetails1) (hcase : (strToLower request) = (strToLower r.name)) :
    (∀ p ∈ refreshVMRecipeCache cache groups,
      p ∈ cache ∨ ∃ g' ∈ groups, ∃ r' ∈ g'.recipes,
        r'.details = some p.2 ∧ p.1 = (strToLower r'.name)) ∧
    ∃ d', rentLookupRecipe (refreshVMRecipeCache cache groups) listing request
      = Except.ok d' := by
  constructor
  · intro p hp
    exact mem_refreshVMRecipeCache_elim p groups cache hp
  · have hmem : ((strToLower r.name), d) ∈ refreshVMRecipeCache cache groups :=
      mem_refreshVMRecipeCache g r d hr hd hne groups cache hg
    have hsome : (cacheLookup (refreshVMRecipeCache cache groups) (strToLower request)).isSome := by
      rw [hcase]
      exact cacheLookup_isSome_of_mem _ _ d hmem
    rcases Option.isSome_iff_exists.mp hsome with ⟨d', hd'⟩
    refine ⟨d', ?_⟩
    unfold rentLookupRecipe findVMRecipe
    rw [hd']

/-- Witness for C7: a recipe registered as `"Ubuntu"` resolves when
requested as `"ubuntu"`, and one registered as `"ubuntu"` resolves
when requested as `"UBUNTU"`. -/
theorem recipe_resolution_case_insensitive_witness :
    (∃ d', rentLookupRecipe
      (refreshVMRecipeCache [] [⟨[⟨"Ubuntu", some ubuntuDetails⟩]⟩])
      (Except.ok []) "ubuntu" = Except.ok d') ∧
    (∃ d', rentLookupRecipe
      (refreshVMRecipeCache [] [⟨[⟨"ubuntu", some ubuntuDetails⟩]⟩])
      (Except.ok []) "UBUNTU" = Except.ok d') := by
  constructor
  · exact (recipe_resolution_case_insensitive [] [⟨[⟨"Ubuntu", some ubuntuDetails⟩]⟩]
      (Except.ok []) ⟨[⟨"Ubuntu", some ubuntuDetails⟩]⟩ ⟨"Ubuntu", some ubuntuDetails⟩
      ubuntuDetails "ubuntu" (by decide) (by decide) rfl (by decide) (by decide)).2
  · exact (recipe_resolution_case_insensitive [] [⟨[⟨"ubuntu", some ubuntuDetails⟩]⟩]
      (Except.ok []) ⟨[⟨"ubuntu", some ubuntuDetails⟩]⟩ ⟨"ubuntu", some ubuntuDetails⟩
      ubuntuDetails "UBUNTU" (by decide) (by decide) rfl (by decide) (by decide)).2

/-- Witness for C9 at a concrete prior state and snapshot. -/
theorem read_preserves_caller_owned_fields_witness :
    priorState.recipe = some "ubuntu" ∧
    (populateModelFromInstanceResponse priorState snapReady).recipe = some "ubuntu" := by
  refine ⟨rfl, ?_⟩
  have h := read_preserves_caller_owned_fields priorState snapReady
    (populateModelFromInstanceResponse priorState snapReady) rfl
  exact h.1

/-! ### Claim C8 — retry with exponential backoff -/

/-- `backoffList` is the doubling sequence `b, 2b, 4b, …`. -/
lemma backoffList_eq_map :
    ∀ (n b : Nat), backoffList b n = (List.range n).map (fun i => b * 2 ^ i) := by
  intro n
  induction n with
  | zero => intro b; rfl
  | succ n ih =>
    intro b
    rw [backoffList, ih (b * 2), List.range_succ_eq_map, List.map_cons, List.map_map]
    have hf : ((fun i => b * 2 ^ i) ∘ Nat.succ) = fun i => b * 2 * 2 ^ i := by
      funext i
      simp only [Function.comp_apply, pow_succ]
      ring
    rw [hf]
    simp

/-- If attempts `idx, …, idx + k - 1` fail and attempt `idx + k`
succeeds within the remaining budget, the retry loop stops right after
attempt `idx + k`, having slept the doubling backoff sequence. -/
lemma retryAttempts_first_success (attemptOk : Nat → Bool) :
    ∀ (k idx r b : Nat) (slept : List Nat),
      (∀ j, idx ≤ j → j < idx + k → attemptOk j = false) →
      attemptOk (idx + k) = true → k < r →
      retryAttempts attemptOk r b idx slept
        = ⟨true, idx + k + 1, slept ++ backoffList b (k + 1)⟩ := by
  intro k
  induction k with
  | zero =>
    intro idx r b slept hfail hok hr
    cases r with
    | zero => omega
    | succ r =>
      rw [retryAttempts]
      rw [show idx + 0 = idx from rfl] at hok
      rw [hok]
      simp [backoffList]
  | succ k ih =>
    intro idx r b slept hfail hok hr
    cases r with
    | zero => omega
    | succ r =>
      rw [retryAttempts]
      have h0 : attemptOk idx = false := hfail idx (Nat.le_refl _) (by omega)
      rw [h0]
      simp only [Bool.false_eq_true, if_false]
      have hfail2 : ∀ j, idx + 1 ≤ j → j < idx + 1 + k → attemptOk j = false := by
        intro j h1 h2
        exact hfail j (by omega) (by omega)
      have hok2 : attemptOk (idx + 1 + k) = true := by
        rw [show idx + 1 + k = idx + (k + 1) from by omega]
        exact hok
      rw [ih (idx + 1) r (b * 2) (slept ++ [b]) hfail2 hok2 (by omega)]
      rw [show idx + 1 + k + 1 = idx + (k + 1) + 1 from by omega, List.append_assoc]
      rfl

/-- Claim C8: a transport-level failure is retried up to the
configured count with backoffs starting at 1 second and doubling each
attempt, and the request succeeds at the first attempt that carries no
transport error: if the first `k` attempts fail and attempt `k`
succeeds with `k ≤ retries`, the operation succeeds after `k + 1`
total attempts with backoffs `2^0, 2^1, …, 2^(k-1)` seconds between
them. -/
theorem transport_retry_backoff (retries : Nat) (attemptOk : Nat → Bool) (k : Nat)
    (hfail : ∀ j < k, attemptOk j = false) (hok : attemptOk k = true)
    (hk : k ≤ retries) :
    DoRequestTransport retries attemptOk
      = ⟨true, k + 1, (List.range k).map (fun i => 2 ^ i)⟩ := by
  cases k with
  | zero =>
    unfold DoRequestTransport
    rw [hok]
    simp
  | succ k =>
    unfold DoRequestTransport
    have h0 : attemptOk 0 = false := hfail 0 (by omega)
    rw [h0]
    simp only [Bool.false_eq_true, if_false]
    have hfail2 : ∀ j, 1 ≤ j → j < 1 + k → attemptOk j = false := by
      intro j h1 h2
      exact hfail j (by omega)
    have hok2 : attemptOk (1 + k) = true := by
      rw [show 1 + k = k + 1 from by omega]
      exact hok
    rw [retryAttempts_first_success attemptOk k 1 retries 1 [] hfail2 hok2 (by omega)]
    rw [backoffList_eq_map]
    rw [show 1 + k + 1 = k + 1 + 1 from by omega]
    simp

/-- Witness for C8: retry count 2 with the transport failing twice and
then succeeding gives success after 3 attempts with backoffs 1s then
2s. -/
theorem transport_retry_backoff_witness :
    DoRequestTransport 2 (fun n => decide (2 ≤ n)) = ⟨true, 3, [1, 2]⟩ := by
  have h := transport_retry_backoff 2 (fun n => decide (2 ≤ n)) 2
    (by decide) (by decide) (by decide)
  rw [h]
  rfl

/-! ### The create poll loop: shared lemmas -/

/-- Consuming a run of not-ready snapshots leaves the loop waiting on
the remaining events, with `last` advanced to the most recent
snapshot. -/
lemma createPollLoop_skip (plan : VirtualMachineModel) :
    ∀ (snaps : List InstanceAndUsageInfo) (last : Option InstanceAndUsageInfo)
      (evs : List PollEvent), (∀ x ∈ snaps, instanceReady x = false) →
      createPollLoop plan last (okTicks snaps ++ evs)
        = createPollLoop plan (lastObserved last snaps) evs := by
  intro snaps
  induction snaps with
  | nil => intro last evs h; rfl
  | cons x xs ih =>
    intro last evs h
    have hx : instanceReady x = false := h x (List.mem_cons_self _ _)
    show createPollLoop plan last (PollEvent.tick (Except.ok x) :: (okTicks xs ++ evs)) = _
    simp only [createPollLoop, hx, Bool.false_eq_true, if_false]
    exact ih (some x) evs (fun y hy => h y (List.mem_cons_of_mem _ hy))

/-- After a non-empty run of snapshots the `last` pointer holds the
final one. -/
lemma lastObserved_append_last :
    ∀ (snaps : List InstanceAndUsageInfo) (last : Option InstanceAndUsageInfo)
      (l : InstanceAndUsageInfo), lastObserved last (snaps ++ [l]) = some l := by
  intro snaps
  induction snaps with
  | nil => intro last l; rfl
  | cons x xs ih => intro last l; exact ih (some x) l

/-- The poll loop never produces the missing-instance-ids outcome. -/
lemma createPollLoop_outcome_ne_noInstanceIds (plan : VirtualMachineModel) :
    ∀ (evs : List PollEvent) (last : Option InstanceAndUsageInfo),
      (createPollLoop plan last evs).outcome ≠ CreateOutcome.noInstanceIds := by
  intro evs
  induction evs with
  | nil => intro last; simp [createPollLoop]
  | cons e rest ih =>
    intro last
    cases e with
    | timeout => simp [createPollLoop]
    | canceled => simp [createPollLoop]
    | tick r =>
      cases r with
      | error err =>
        by_cases h : err = GoErr.notFound
        · simp [createPollLoop, h]
        · simp [createPollLoop, h]
      | ok current =>
        by_cases h : instanceReady current = true
        · simp [createPollLoop, h]
        · simp only [createPollLoop, h, if_false]
          exact ih (some current)

/-! ### Claim C1 — the instance-id count check after rent -/

/-- Claim C1 counterexample: a rent response with two instance ids is
not rejected — the poll loop begins (waiting with an empty trace) and
can even complete successfully using the first id. -/
theorem rent_two_ids_polls_counterexample :
    (createAfterRent emptyModel (Except.ok ⟨["inst-a", "inst-b"]⟩) []).outcome
      = CreateOutcome.running ∧
    (createAfterRent emptyModel (Except.ok ⟨["inst-a", "inst-b"]⟩)
      [PollEvent.tick (Except.ok snapReady)]).outcome = CreateOutcome.success := by
  exact ⟨rfl, rfl⟩

/-- Claim C1 amended: creation aborts with the hard id error exactly
when the rent call returns zero instance ids; with one or more ids the
first id is written into the plan and polling begins. -/
theorem rent_id_check (plan : VirtualMachineModel) (events : List PollEvent)
    (ids : RentIds) :
    ((createAfterRent plan (Except.ok ids) events).outcome = CreateOutcome.noInstanceIds ↔
      ids.instanceIds = []) ∧
    (∀ id rest, ids.instanceIds = id :: rest →
      createAfterRent plan (Except.ok ids) events
        = createPollLoop { plan with id := some id } none events) := by
  obtain ⟨l⟩ := ids
  constructor
  · cases l with
    | nil => simp [createAfterRent]
    | cons id rest =>
      simp only [createAfterRent]
      constructor
      · intro h
        exact absurd h (createPollLoop_outcome_ne_noInstanceIds _ events none)
      · intro h
        simp at h
  · intro id rest h
    simp only at h
    subst h
    rfl

/-- Witness for the amended C1. -/
theorem rent_id_check_witness :
    (createAfterRent emptyModel (Except.ok ⟨[]⟩) []).outcome
      = CreateOutcome.noInstanceIds ∧
    createAfterRent emptyModel (Except.ok ⟨["inst-a"]⟩) []
      = createPollLoop { emptyModel with id := some "inst-a" } none [] := by
  constructor
  · exact (rent_id_check emptyModel [] ⟨[]⟩).1.mpr rfl
  · exact (rent_id_check emptyModel [] ⟨["inst-a"]⟩).2 "inst-a" [] rfl

/-! ### Claim C2 — the readiness predicate of create polling -/

/-- Claim C2 counterexample: at a tick whose snapshot is Active with a
ready VM that is not first in the list, the loop does not succeed as
the claim demands but keeps polling. -/
theorem ready_second_vm_continues_counterexample :
    snapSecondReady.status = InstanceStatus.Active ∧
    (∃ vm ∈ snapSecondReady.virtualMachines, vm.ready = true) ∧
    (createPollLoop emptyModel none
      [PollEvent.tick (Except.ok snapSecondReady)]).outcome
      ≠ CreateOutcome.success := by
  refine ⟨rfl, ⟨vmReadyInfo, by decide, rfl⟩, by decide⟩

/-- Claim C2 amended: the loop succeeds exactly at the first tick
whose snapshot has status Active and whose FIRST listed virtual
machine reports ready (`instanceReady`), persisting the merged
snapshot; it keeps polling through every tick whose snapshot is not
`instanceReady`. -/
theorem create_poll_success_at_first_ready (plan : VirtualMachineModel)
    (snaps : List InstanceAndUsageInfo) (s : InstanceAndUsageInfo)
    (rest : List PollEvent)
    (hsnaps : ∀ x ∈ snaps, instanceReady x = false) :
    (instanceReady s = true →
      createPollLoop plan none (okTicks snaps ++ PollEvent.tick (Except.ok s) :: rest)
        = ⟨CreateOutcome.success, some (populateModelFromInstanceResponse plan s)⟩) ∧
    createPollLoop plan none (okTicks snaps) = ⟨CreateOutcome.running, none⟩ := by
  constructor
  · intro hs
    rw [createPollLoop_skip plan snaps none (PollEvent.tick (Except.ok s) :: rest) hsnaps]
    simp [createPollLoop, hs]
  · have h := createPollLoop_skip plan snaps none [] hsnaps
    rw [List.append_nil] at h
    rw [h]
    rfl

/-- Witness for the amended C2: two not-ready ticks then a ready one. -/
theorem create_poll_success_at_first_ready_witness :
    createPollLoop emptyModel none
      (okTicks [snapInit, snapInit] ++ PollEvent.tick (Except.ok snapReady) :: [])
      = ⟨CreateOutcome.success,
          some (populateModelFromInstanceResponse emptyModel snapReady)⟩ :=
  (create_poll_success_at_first_ready emptyModel [snapInit, snapInit] snapReady []
    (by decide)).1 (by decide)

/-! ### Claim C3 — persistence of the last snapshot on failure exits -/

/-- Claim C3 counterexample: after one successful poll, a NotFound
fetch error exits reporting the failure without persisting any state,
dropping the last observed snapshot. -/
theorem notFound_drops_last_snapshot_counterexample :
    instanceReady snapInit = false ∧
    createPollLoop emptyModel none
      [PollEvent.tick (Except.ok snapInit), PollEvent.tick (Except.error GoErr.notFound)]
      = ⟨CreateOutcome.pollFailed GoErr.notFound, none⟩ := by
  exact ⟨rfl, rfl⟩

/-- Claim C3 amended: after at least one successful poll, deadline
expiry, cancellation, and any fetch error other than NotFound merge
the last observed snapshot into the model and persist it before the
failure is reported; a NotFound fetch error reports the failure
without persisting anything. -/
theorem create_poll_failure_persists_last (plan : VirtualMachineModel)
    (snaps : List InstanceAndUsageInfo) (l : InstanceAndUsageInfo)
    (rest : List PollEvent) (msg : String)
    (h : ∀ x ∈ snaps ++ [l], instanceReady x = false) :
    createPollLoop plan none (okTicks (snaps ++ [l]) ++ PollEvent.timeout :: rest)
      = ⟨CreateOutcome.timedOut, some (populateModelFromInstanceResponse plan l)⟩ ∧
    createPollLoop plan none (okTicks (snaps ++ [l]) ++ PollEvent.canceled :: rest)
      = ⟨CreateOutcome.cancelled, some (populateModelFromInstanceResponse plan l)⟩ ∧
    createPollLoop plan none
        (okTicks (snaps ++ [l]) ++ PollEvent.tick (Except.error (GoErr.other msg)) :: rest)
      = ⟨CreateOutcome.pollFailed (GoErr.other msg),
          some (populateModelFromInstanceResponse plan l)⟩ ∧
    createPollLoop plan none
        (okTicks (snaps ++ [l]) ++ PollEvent.tick (Except.error GoErr.notFound) :: rest)
      = ⟨CreateOutcome.pollFailed GoErr.notFound, none⟩ := by
  have hlast : lastObserved none (snaps ++ [l]) = some l :=
    lastObserved_append_last snaps none l
  refine ⟨?_, ?_, ?_, ?_⟩ <;>
    rw [createPollLoop_skip plan (snaps ++ [l]) none _ h, hlast] <;>
    simp [createPollLoop, mergeLast]

/-- Witness for the amended C3. -/
theorem create_poll_failure_persists_last_witness :
    createPollLoop emptyModel none
      (okTicks ([] ++ [snapInit]) ++ PollEvent.timeout :: [])
      = ⟨CreateOutcome.timedOut,
          some (populateModelFromInstanceResponse emptyModel snapInit)⟩ :=
  (create_poll_failure_persists_last emptyModel [] snapInit [] "api error 500"
    (by decide)).1

/-! ### Claim C10 — the rented id survives early failure exits -/

/-- Claim C10: the first rented instance id is written into the plan
before polling starts, so a deadline expiry or cancellation that fires
before any successful poll still persists a state carrying that id. -/
theorem rent_id_persisted_on_early_exit (plan : VirtualMachineModel) (ids : RentIds)
    (id : String) (rest : List String) (evs : List PollEvent)
    (h : ids.instanceIds = id :: rest) :
    createAfterRent plan (Except.ok ids) (PollEvent.timeout :: evs)
      = ⟨CreateOutcome.timedOut, some { plan with id := some id }⟩ ∧
    createAfterRent plan (Except.ok ids) (PollEvent.canceled :: evs)
      = ⟨CreateOutcome.cancelled, some { plan with id := some id }⟩ := by
  obtain ⟨l⟩ := ids
  simp only at h
  subst h
  exact ⟨rfl, rfl⟩

/-- Witness for C10. -/
theorem rent_id_persisted_on_early_exit_witness :
    createAfterRent emptyModel (Except.ok ⟨["inst-a"]⟩) [PollEvent.timeout]
      = ⟨CreateOutcome.timedOut, some { emptyModel with id := some "inst-a" }⟩ :=
  (rent_id_persisted_on_early_exit emptyModel ⟨["inst-a"]⟩ "inst-a" [] [] rfl).1

end Cloudrift
